import Mathlib

/-!
Verification of the jsonrpcserver message-processing core.

The repository ships `jsonrpcserver/codes.py` (the error-code table), the
examples and the test suite; the dispatcher module itself
(`jsonrpcserver/dispatcher.py` together with the value model in
`request.py` / `response.py` / `result.py` / `sentinels.py` and the entry
points in `main.py`) is not part of the sources here.  Those parts are
modelled from the specification, with the test suite pinning the concrete
behaviour of every modelled function.
-/

namespace Jsonrpcserver

/-- JSON values, the payloads flowing through the pipeline.  Numbers are
modelled as integers, which is enough for every behaviour the claims
quantify over. -/
inductive JsonValue where
  | null : JsonValue
  | bool (b : Bool) : JsonValue
  | num (n : Int) : JsonValue
  | str (s : String) : JsonValue
  | arr (l : List JsonValue) : JsonValue
  | obj (o : List (String × JsonValue)) : JsonValue

/-- From `jsonrpcserver/codes.py`. -/
def ERROR_PARSE_ERROR : Int := -32700

/-- From `jsonrpcserver/codes.py`. -/
def ERROR_INVALID_REQUEST : Int := -32600

/-- From `jsonrpcserver/codes.py`. -/
def ERROR_METHOD_NOT_FOUND : Int := -32601

/-- From `jsonrpcserver/codes.py`. -/
def ERROR_INVALID_PARAMS : Int := -32602

/-- From `jsonrpcserver/codes.py`. -/
def ERROR_INTERNAL_ERROR : Int := -32603

/-- From `jsonrpcserver/codes.py`. -/
def ERROR_SERVER_ERROR : Int := -32000

/-- The apostrophe character, used by the interpreter argument-binding
error messages to quote argument names. -/
def squote : String := (Char.ofNat 39).toString

/-- Modelled from the spec: `jsonrpcserver/sentinels.py` is missing from the
sources.  The NOCONTEXT sentinel is a distinct marker, never confused with an
ordinary value (so methods can distinguish absent context from a null
context); a supplied context value is modelled as a JSON value. -/
inductive Ctx where
  | nocontext : Ctx
  | ctx (v : JsonValue) : Ctx

/-- Modelled from the spec: `jsonrpcserver/request.py` is missing from the
sources.  `params` is the raw JSON params member: a positional sequence, a
named mapping, or the empty positional sequence when absent.  `id = none`
models the NOID sentinel marking a notification. -/
structure Request where
  method : String
  params : JsonValue
  id : Option JsonValue

/-- Modelled from the spec: the NODATA sentinel of `jsonrpcserver/result.py`
(missing from the sources) as distinct from a null data member. -/
inductive ErrData where
  | nodata : ErrData
  | val (v : JsonValue) : ErrData

/-- Modelled from the spec: `ErrorResult` of `jsonrpcserver/result.py`
(missing from the sources). -/
structure ErrorResult where
  code : Int
  message : String
  data : ErrData

/-- Modelled from the spec: `SuccessResult` of `jsonrpcserver/result.py`
(missing from the sources). -/
structure SuccessResult where
  result : JsonValue

/-- A method Result: the explicit two-armed success/failure value
(`Either ErrorResult SuccessResult` in the source terms). -/
abbrev RpcResult := Except ErrorResult SuccessResult

/-- Modelled from the spec: `ErrorResponse` of `jsonrpcserver/response.py`
(missing from the sources); id is an actual JSON value (null allowed). -/
structure ErrorResponse where
  code : Int
  message : String
  data : ErrData
  id : JsonValue

/-- Modelled from the spec: `SuccessResponse` of `jsonrpcserver/response.py`
(missing from the sources). -/
structure SuccessResponse where
  result : JsonValue
  id : JsonValue

/-- A Response: `Either ErrorResponse SuccessResponse` in the source
terms. -/
abbrev Response := Except ErrorResponse SuccessResponse

/-- The three possible shapes of the whole pipeline output: no response at
all (the Python `None`), a single response, or an ordered batch. -/
inductive DispatchResult where
  | noResponse : DispatchResult
  | single (r : Response) : DispatchResult
  | batch (rs : List Response) : DispatchResult

/-- Modelled from the spec: what invoking a method body can do — return a
valid Result, return a value that is not a Result at all (carried as its
printed representation), raise the protocol-aware `JsonRpcError`, or raise
any other exception (carried as its stringified description). -/
inductive MethodOutcome where
  | result (r : RpcResult) : MethodOutcome
  | invalidReturn (rep : String) : MethodOutcome
  | raiseJsonRpc (code : Int) (message : String) (data : ErrData) : MethodOutcome
  | raiseOther (description : String) : MethodOutcome

/-- Modelled from the spec: the introspectable signature of a registered
callable — the positional-or-keyword parameter names in declaration order,
each flagged with whether it has a default, plus the presence of a
var-positional (`*args`) and a var-keyword (`**kwargs`) catch-all. -/
structure MethodSig where
  posParams : List (String × Bool)
  hasVarArgs : Bool
  hasVarKwargs : Bool

/-- Modelled from the spec: a registered method — a signature the binder can
introspect, and a body mapping the actual positional and keyword call
arguments to an invocation outcome.  The binder consults only `sig`; only
the Invoker runs `body`. -/
structure Method where
  sig : MethodSig
  body : List JsonValue → List (String × JsonValue) → MethodOutcome

/-- A method registry: a name-to-callable mapping. -/
abbrev Methods := List (String × Method)

/-- Modelled from the spec: `extract_args` of `jsonrpcserver/dispatcher.py`
(missing from the sources).  The positional call arguments: the request
params when they are a positional sequence (otherwise empty), with the
context value prepended whenever a context was supplied.  Behaviour pinned
by `test_extract_args` and `test_extract_args_with_context`: the function
receives only the request and the context, not the callable. -/
def extract_args (request : Request) (context : Ctx) : List JsonValue :=
  let params :=
    match request.params with
    | .arr l => l
    | _ => []
  match context with
  | .nocontext => params
  | .ctx v => v :: params

/-- Modelled from the spec: `extract_kwargs` of `jsonrpcserver/dispatcher.py`
(missing from the sources).  The keyword call arguments: the request
params when they are a named mapping, otherwise empty. -/
def extract_kwargs (request : Request) : List (String × JsonValue) :=
  match request.params with
  | .obj o => o
  | _ => []

/-- Modelled from the spec: signature binding as the interpreter
`Signature.bind` performs it for positional-or-keyword parameters — returns
the error message of the raised `TypeError`, or `none` when binding
succeeds.  Checks, in the interpreter order: a keyword argument colliding
with a positionally filled parameter, too many positional arguments, the
first required parameter left unfilled, then an unexpected keyword
argument. -/
def bindArgs (sig : MethodSig) (args : List JsonValue)
    (kwargs : List (String × JsonValue)) : Option String :=
  let names := sig.posParams.map Prod.fst
  match (names.take args.length).find? (fun n => kwargs.any (fun kv => kv.1 == n)) with
  | some n => some ("multiple values for argument " ++ squote ++ n ++ squote)
  | none =>
    if sig.posParams.length < args.length && !sig.hasVarArgs then
      some ("too many positional arguments")
    else
      let remaining := sig.posParams.drop args.length
      match remaining.find? (fun p => !p.2 && !kwargs.any (fun kv => kv.1 == p.1)) with
      | some p => some ("missing a required argument: " ++ squote ++ p.1 ++ squote)
      | none =>
        let remNames := remaining.map Prod.fst
        let leftover := kwargs.filter (fun kv => !remNames.contains kv.1)
        if leftover.isEmpty || sig.hasVarKwargs then none
        else
          some ("got an unexpected keyword argument " ++ squote
            ++ (leftover.headD ("", JsonValue.null)).1 ++ squote)

/-- Modelled from the spec: `validate_args` of `jsonrpcserver/dispatcher.py`
(missing from the sources).  Binds the extracted call arguments against the
callable signature without invoking it; a binding failure becomes an
InvalidParams error carrying the binder message as data. -/
def validate_args (request : Request) (context : Ctx) (func : Method) :
    Except ErrorResult Method :=
  match bindArgs func.sig (extract_args request context) (extract_kwargs request) with
  | some msg =>
    Except.error ⟨ERROR_INVALID_PARAMS, "Invalid params", ErrData.val (.str msg)⟩
  | none => Except.ok func

/-- Modelled from the spec: `get_method` of `jsonrpcserver/dispatcher.py`
(missing from the sources).  Exact-name lookup; a miss becomes a
MethodNotFound error carrying the requested name as data. -/
def get_method (methods : Methods) (method_name : String) :
    Except ErrorResult Method :=
  match methods.lookup method_name with
  | some m => Except.ok m
  | none =>
    Except.error ⟨ERROR_METHOD_NOT_FOUND, "Method not found",
      ErrData.val (.str method_name)⟩

/-- Modelled from the spec: `call` of `jsonrpcserver/dispatcher.py` (missing
from the sources).  Invokes the callable on the extracted arguments; a valid
Result is passed through, a non-Result return value becomes an InternalError
whose data quotes the value representation, a raised protocol-aware
failure becomes an error with its code, message and data verbatim, and any
other raised failure becomes an InternalError with its description as
data. -/
def call (request : Request) (context : Ctx) (method : Method) : RpcResult :=
  match method.body (extract_args request context) (extract_kwargs request) with
  | .result r => r
  | .invalidReturn rep =>
    Except.error ⟨ERROR_INTERNAL_ERROR, "Internal error",
      ErrData.val (.str ("The method did not return a valid Result (returned "
        ++ rep ++ ")"))⟩
  | .raiseJsonRpc c m d => Except.error ⟨c, m, d⟩
  | .raiseOther desc =>
    Except.error ⟨ERROR_INTERNAL_ERROR, "Internal error", ErrData.val (.str desc)⟩

/-- Modelled from the spec: `dispatch_request` of
`jsonrpcserver/dispatcher.py` (missing from the sources).  Resolver, binder
and invoker chained on the success arm, paired with the originating
request. -/
def dispatch_request (methods : Methods) (context : Ctx) (request : Request) :
    Request × RpcResult :=
  (request,
    (get_method methods request.method).bind fun m =>
      (validate_args request context m).bind fun m2 =>
        call request context m2)

/-- The member list of a JSON object, empty for any other value. -/
def objFields : JsonValue → List (String × JsonValue)
  | .obj fields => fields
  | _ => []

/-- Modelled from the spec: `create_request` of
`jsonrpcserver/dispatcher.py` (missing from the sources).  Builds a Request
from one validated request object: absent params default to the empty
positional sequence, an absent id becomes the notification sentinel. -/
def create_request (v : JsonValue) : Request :=
  ⟨(match (objFields v).lookup ("method") with
    | some (.str s) => s
    | _ => ""),
   (match (objFields v).lookup ("params") with
    | some p => p
    | none => .arr []),
   (objFields v).lookup ("id")⟩

/-- Modelled from the spec: `to_response` of `jsonrpcserver/dispatcher.py`
(missing from the sources).  Converts a (Request, Result) pair to a
Response carrying the request id; converting a pair whose id is the
notification sentinel fails an assertion — modelled as the exception arm,
carrying the raised assertion (empty) description — rather than
producing any Response. -/
def to_response (request : Request) (result : RpcResult) :
    Except String Response :=
  match request.id with
  | none => Except.error ("")
  | some i =>
    Except.ok
      (match result with
       | .error e => Except.error ⟨e.code, e.message, e.data, i⟩
       | .ok s => Except.ok ⟨s.result, i⟩)

/-- Modelled from the spec: `not_notification` of
`jsonrpcserver/dispatcher.py` (missing from the sources). -/
def not_notification (rr : Request × RpcResult) : Bool :=
  rr.1.id.isSome

/-- Modelled from the spec: `extract_list` of `jsonrpcserver/dispatcher.py`
(missing from the sources).  Discards absent entries, then: for a batch, an
empty remainder collapses to no response and a non-empty one stays a batch;
for a single payload the first remaining response (or no response) is the
result.  Behaviour pinned by the four `test_extract_list*` tests. -/
def extract_list (is_batch : Bool) (responses : List (Option Response)) :
    DispatchResult :=
  let response_list := responses.filterMap id
  if is_batch then
    match response_list with
    | [] => DispatchResult.noResponse
    | rs => DispatchResult.batch rs
  else
    match response_list with
    | [] => DispatchResult.noResponse
    | r :: _ => DispatchResult.single r

/-- Whether the payload is a batch: the top-level JSON value is an array. -/
def is_batch_payload : JsonValue → Bool
  | .arr _ => true
  | _ => false

/-- The payload as a list of member objects: an array is a batch of its
members, any other value a one-element list. -/
def to_list : JsonValue → List JsonValue
  | .arr l => l
  | v => [v]

/-- Modelled from the spec: `dispatch_deserialized` of
`jsonrpcserver/dispatcher.py` (missing from the sources), parametrised over
the per-request dispatch step so that a failure raised inside the dispatch
machinery itself (the exception arm of `dispatchReq`, or the assertion
inside `to_response`) propagates out, as an interpreter exception would,
instead of being mapped per-request.  Each member object becomes a Request
and is dispatched independently; notification pairs are filtered out before
response construction; each response goes through the caller post-process
hook; and the ordered remainder is reassembled according to whether the
payload was a batch. -/
def dispatch_deserialized_with
    (dispatchReq : Methods → Ctx → Request → Except String (Request × RpcResult))
    (methods : Methods) (context : Ctx) (post_process : Response → Response)
    (deserialized : JsonValue) : Except String DispatchResult :=
  match (to_list deserialized).mapM
      (fun d => dispatchReq methods context (create_request d)) with
  | .error e => Except.error e
  | .ok results =>
    match (results.filter not_notification).mapM
        (fun rr => (to_response rr.1 rr.2).map post_process) with
    | .error e => Except.error e
    | .ok responses =>
      Except.ok (extract_list (is_batch_payload deserialized)
        (responses.map some))

/-- The real per-request dispatch step, which never raises. -/
def dispatch_request_lifted (methods : Methods) (context : Ctx)
    (request : Request) : Except String (Request × RpcResult) :=
  Except.ok (dispatch_request methods context request)

/-- Modelled from the spec: `dispatch_deserialized` of
`jsonrpcserver/dispatcher.py` (missing from the sources), with the real
dispatch step. -/
def dispatch_deserialized (methods : Methods) (context : Ctx)
    (post_process : Response → Response) (deserialized : JsonValue) :
    Except String DispatchResult :=
  dispatch_deserialized_with dispatch_request_lifted methods context
    post_process deserialized

/-- Modelled from the spec: `deserialize_request` of
`jsonrpcserver/dispatcher.py` (missing from the sources).  A deserializer
failure (the parser raised exception, modelled as the error arm carrying
its message) becomes a ParseError response with the parser message as
data and a null id. -/
def deserialize_request (deserializer : String → Except String JsonValue)
    (request : String) : Except Response JsonValue :=
  match deserializer request with
  | .ok v => Except.ok v
  | .error msg =>
    Except.error (Except.error
      ⟨ERROR_PARSE_ERROR, "Parse error", ErrData.val (.str msg), JsonValue.null⟩)

/-- Modelled from the spec: `validate_request` of
`jsonrpcserver/dispatcher.py` (missing from the sources).  The validator is
applied once to the whole deserialized payload; failure becomes an
InvalidRequest response with a fixed data string and a null id. -/
def validate_request (validator : JsonValue → Bool) (request : JsonValue) :
    Except Response JsonValue :=
  if validator request then Except.ok request
  else
    Except.error (Except.error
      ⟨ERROR_INVALID_REQUEST, "Invalid request",
       ErrData.val (.str ("The request failed schema validation")), JsonValue.null⟩)

/-- Modelled from the spec: `dispatch_to_response_pure` of
`jsonrpcserver/dispatcher.py` (missing from the sources), parametrised over
the per-request dispatch step.  Deserialize, then validate, each
short-circuiting to its single error response; then dispatch the payload,
with a failure escaping the dispatch machinery caught and mapped to a
single ServerError response with the failure description as data and a
null id. -/
def dispatch_to_response_pure_with
    (dispatchReq : Methods → Ctx → Request → Except String (Request × RpcResult))
    (deserializer : String → Except String JsonValue)
    (validator : JsonValue → Bool) (post_process : Response → Response)
    (context : Ctx) (methods : Methods) (request : String) : DispatchResult :=
  match (deserialize_request deserializer request).bind (validate_request validator) with
  | .error resp => DispatchResult.single resp
  | .ok deserialized =>
    match dispatch_deserialized_with dispatchReq methods context post_process
        deserialized with
    | .ok result => result
    | .error desc =>
      DispatchResult.single (Except.error
        ⟨ERROR_SERVER_ERROR, "Server error", ErrData.val (.str desc),
         JsonValue.null⟩)

/-- Modelled from the spec: `dispatch_to_response_pure` of
`jsonrpcserver/dispatcher.py` (missing from the sources), with the real
dispatch step. -/
def dispatch_to_response_pure (deserializer : String → Except String JsonValue)
    (validator : JsonValue → Bool) (post_process : Response → Response)
    (context : Ctx) (methods : Methods) (request : String) : DispatchResult :=
  dispatch_to_response_pure_with dispatch_request_lifted deserializer validator
    post_process context methods request

/-- Whether an optional params member is structurally valid: absent, a
positional sequence, or a named mapping. -/
def valid_params_member : Option JsonValue → Bool
  | none => true
  | some (.arr _) => true
  | some (.obj _) => true
  | _ => false

/-- Whether an optional id member is structurally valid: absent, a string, a
number, or null. -/
def valid_id_member : Option JsonValue → Bool
  | none => true
  | some (.str _) => true
  | some (.num _) => true
  | some .null => true
  | _ => false

/-- Modelled from the spec: one request object of the JSON-RPC 2.0
structural shape — an object with `jsonrpc` equal to "2.0", a string
`method`, an optional structurally valid `params` and an optional
structurally valid `id`. -/
def valid_request_object (v : JsonValue) : Bool :=
  match v with
  | .obj fields =>
    (match fields.lookup ("jsonrpc") with
     | some (.str s) => s == "2.0"
     | _ => false)
    && (match fields.lookup ("method") with
        | some (.str _) => true
        | _ => false)
    && valid_params_member (fields.lookup ("params"))
    && valid_id_member (fields.lookup ("id"))
  | _ => false

/-- Modelled from the spec: `default_validator` of `jsonrpcserver/main.py`
(missing from the sources) — the JSON-RPC 2.0 structural schema, checked
once against the whole payload: a batch must be a non-empty array all of
whose members are valid request objects; anything else must itself be a
valid request object. -/
def default_validator (v : JsonValue) : Bool :=
  match v with
  | .arr l => !l.isEmpty && l.all valid_request_object
  | _ => valid_request_object v

/-- The response one dispatched (Request, Result) pair contributes: none
for a notification pair, otherwise its post-processed response. -/
def pair_response (post : Response → Response) (rr : Request × RpcResult) :
    Option Response :=
  if not_notification rr then (to_response rr.1 rr.2).toOption.map post
  else none

/-- The response one member object of a payload contributes: none for a
notification, otherwise its dispatched, post-processed response.  This is
the per-member reading of the pipeline, used to state order preservation
and notification suppression. -/
def response_for (methods : Methods) (context : Ctx)
    (post_process : Response → Response) (v : JsonValue) : Option Response :=
  pair_response post_process (dispatch_request methods context (create_request v))

/-- The `ping` method of the test suite: no parameters, returns
`Success("pong")`. -/
def pingM : Method :=
  ⟨⟨[], false, false⟩, fun _ _ => .result (Except.ok ⟨.str ("pong")⟩)⟩

/-- The `foo(colour, size)` method of the test suite: two required
parameters. -/
def fooSizeM : Method :=
  ⟨⟨[("colour", false), ("size", false)], false, false⟩,
   fun _ _ => .result (Except.ok ⟨.null⟩)⟩

/-- A method accepting arbitrary keyword arguments, like the test suite
`lambda **kwargs`. -/
def kwargsM : Method :=
  ⟨⟨[], false, true⟩, fun _ _ => .result (Except.ok ⟨.null⟩)⟩

/-- A method that raises the protocol-aware failure with code 0 (a reserved
code region), message "foo" and data "bar", like the test suite
`raise_exception`. -/
def raiseJsonRpcM : Method :=
  ⟨⟨[], false, false⟩, fun _ _ => .raiseJsonRpc 0 ("foo") (ErrData.val (.str ("bar")))⟩

/-- A method that raises a generic failure described "foo", like the test
suite `ValueError`-raising method. -/
def raiseOtherM : Method :=
  ⟨⟨[], false, false⟩, fun _ _ => .raiseOther ("foo")⟩

/-- A method returning a value that is not a Result — the interpreter
`None`, whose representation is "None" — like the test suite
`not_a_result`. -/
def notAResultM : Method :=
  ⟨⟨[], false, false⟩, fun _ _ => .invalidReturn ("None")⟩

/-- A well-formed notification request object calling `ping`. -/
def pingNotifObj : JsonValue :=
  .obj [("jsonrpc", .str ("2.0")), ("method", .str ("ping"))]

/-- A well-formed id-bearing request object calling `ping` with id 1. -/
def pingIdObj : JsonValue :=
  .obj [("jsonrpc", .str ("2.0")), ("method", .str ("ping")), ("id", .num 1)]

/-- Reassembly of a batch collected responses: an empty collection
collapses to no response, a non-empty one stays a batch. -/
def batch_result (rs : List Response) : DispatchResult :=
  match rs with
  | [] => DispatchResult.noResponse
  | rs => DispatchResult.batch rs

/-- Reassembly of a single payload possibly-absent response. -/
def single_result (r : Option Response) : DispatchResult :=
  match r with
  | none => DispatchResult.noResponse
  | some r => DispatchResult.single r

/-- Mapping a total (never-raising) step over a list in the exception monad
is the plain map. -/
theorem mapM_of_ok {α β : Type} (f : α → β) (l : List α) :
    (l.mapM (fun a => (Except.ok (f a) : Except String β))) =
      Except.ok (l.map f) := by
  induction l with
  | nil => rfl
  | cons a as ih =>
    rw [List.mapM_cons, ih]
    rfl

/-- Mapping a step that always raises over a non-empty list in the exception
monad raises. -/
theorem mapM_of_error {α β : Type} (e : String) (a : α) (as : List α) :
    ((a :: as).mapM (fun _ => (Except.error e : Except String β))) =
      (Except.error e : Except String (List β)) := by
  rw [List.mapM_cons]
  rfl

/-- Converting the notification-filtered dispatch pairs never trips the
`to_response` assertion, and produces exactly the per-pair responses. -/
theorem mapM_to_response (post : Response → Response) :
    ∀ l : List (Request × RpcResult),
    ((l.filter not_notification).mapM
        (fun rr => (to_response rr.1 rr.2).map post)) =
      Except.ok (l.filterMap (pair_response post)) := by
  intro l
  induction l with
  | nil => rfl
  | cons rr rest ih =>
    by_cases h : not_notification rr = true
    · obtain ⟨i, hi⟩ := Option.isSome_iff_exists.mp h
      rw [List.filter_cons, if_pos h, List.mapM_cons, ih, List.filterMap_cons]
      simp [pair_response, h, to_response, hi]
      rfl
    · have h' : not_notification rr = false := by simpa using h
      have hp : pair_response post rr = none := by simp [pair_response, h']
      rw [List.filter_cons, if_neg (by simp [h']), List.filterMap_cons, hp]
      exact ih

/-- Evaluation of extract_list on already-present responses. -/
theorem extract_list_map_some (b : Bool) (rs : List Response) :
    extract_list b (rs.map some) =
      (if b then
        match rs with
        | [] => DispatchResult.noResponse
        | rs => DispatchResult.batch rs
       else
        match rs with
        | [] => DispatchResult.noResponse
        | r :: _ => DispatchResult.single r) := by
  have hid : (rs.map some).filterMap id = rs := by
    rw [List.filterMap_map]
    exact List.filterMap_some rs
  simp only [extract_list, hid]

/-- The real dispatch step never escapes the machinery: dispatching a
deserialized payload succeeds and produces, member by member in original
order, exactly the per-member responses. -/
theorem dispatch_deserialized_members (methods : Methods) (context : Ctx)
    (post_process : Response → Response) (v : JsonValue) :
    dispatch_deserialized_with dispatch_request_lifted methods context
        post_process v =
      Except.ok (extract_list (is_batch_payload v)
        (((to_list v).filterMap
          (response_for methods context post_process)).map some)) := by
  unfold dispatch_deserialized_with dispatch_request_lifted
  simp only [mapM_of_ok, mapM_to_response, List.filterMap_map]
  rfl

/-- The whole pipeline on a payload that deserializes and validates: it is
the per-member semantics, reassembled by `extract_list`. -/
theorem dispatch_pipeline_valid (deserializer : String → Except String JsonValue)
    (validator : JsonValue → Bool) (post_process : Response → Response)
    (context : Ctx) (methods : Methods) (text : String) (v : JsonValue)
    (hd : deserializer text = Except.ok v) (hv : validator v = true) :
    dispatch_to_response_pure deserializer validator post_process context
        methods text =
      extract_list (is_batch_payload v)
        (((to_list v).filterMap
          (response_for methods context post_process)).map some) := by
  unfold dispatch_to_response_pure dispatch_to_response_pure_with
  simp only [deserialize_request, hd, validate_request, hv, if_true,
    Except.bind, dispatch_deserialized_members]

/-- Evaluation of extract_list on the already-present responses of a batch. -/
theorem extract_list_true (rs : List Response) :
    extract_list true (rs.map some) = batch_result rs := by
  rw [extract_list_map_some]
  cases rs <;> rfl

/-- Evaluation of extract_list on the already-present responses of a single payload. -/
theorem extract_list_false (rs : List Response) :
    extract_list false (rs.map some) = single_result rs.head? := by
  rw [extract_list_map_some]
  cases rs <;> rfl

/-- C1: For every well-formed single request whose JSON object omits the id
member (a notification), dispatch returns the no-response value — for every
registry and context whatsoever, hence regardless of whether the invoked
method succeeds, returns an error result, raises a protocol-aware failure,
raises a generic failure, or returns an invalid result. -/
theorem C1_notification_no_response
    (deserializer : String → Except String JsonValue)
    (validator : JsonValue → Bool) (post_process : Response → Response)
    (context : Ctx) (methods : Methods) (text : String)
    (fields : List (String × JsonValue))
    (hd : deserializer text = Except.ok (.obj fields))
    (hv : validator (.obj fields) = true)
    (hid : fields.lookup ("id") = none) :
    dispatch_to_response_pure deserializer validator post_process context
      methods text = DispatchResult.noResponse := by
  rw [dispatch_pipeline_valid deserializer validator post_process context
    methods text _ hd hv]
  have hrf : response_for methods context post_process (.obj fields) = none := by
    simp [response_for, pair_response, not_notification, dispatch_request,
      create_request, objFields, hid]
  simp [to_list, is_batch_payload, hrf, extract_list]

/-- Witness for C1: a concrete notification calling `ping`, with any method
registry answering it. -/
theorem C1_witness :
    dispatch_to_response_pure (fun _ => Except.ok pingNotifObj)
      default_validator id Ctx.nocontext [("ping", pingM)] "x" =
      DispatchResult.noResponse :=
  C1_notification_no_response _ _ _ _ _ _ _ rfl rfl rfl

/-- C2: For every input text that the deserializer cannot parse, the whole
pipeline terminates with exactly one non-batch error response with code
-32700, message "Parse error", the underlying parser message as data, and
id null — for every text, in particular texts that would have represented a
batch had they parsed. -/
theorem C2_parse_error
    (deserializer : String → Except String JsonValue)
    (validator : JsonValue → Bool) (post_process : Response → Response)
    (context : Ctx) (methods : Methods) (text : String) (msg : String)
    (hd : deserializer text = Except.error msg) :
    dispatch_to_response_pure deserializer validator post_process context
      methods text =
      DispatchResult.single (Except.error
        ⟨-32700, "Parse error", ErrData.val (.str msg), JsonValue.null⟩) := by
  unfold dispatch_to_response_pure dispatch_to_response_pure_with
  simp [deserialize_request, hd, Except.bind, ERROR_PARSE_ERROR]

/-- Witness for C2: the parse failure of the test suite truncated batch
text, surfacing the parser own message. -/
theorem C2_witness :
    dispatch_to_response_pure
      (fun _ => Except.error
        "Expecting property name enclosed in double quotes: line 1 column 2 (char 1)")
      default_validator id Ctx.nocontext [("ping", pingM)] "x" =
      DispatchResult.single (Except.error
        ⟨-32700, "Parse error",
         ErrData.val (.str
           "Expecting property name enclosed in double quotes: line 1 column 2 (char 1)"),
         JsonValue.null⟩) :=
  C2_parse_error _ _ _ _ _ _ _ rfl

/-- C3: Schema validation is applied once to the whole deserialized payload:
whenever the validator rejects it, dispatch yields a single non-batch error
response with code -32600, message "Invalid request", data "The request
failed schema validation" and id null, for every registry — so no batch
member is dispatched.  Moreover the default validator rejects the empty
array, and rejects any batch containing at least one invalid member,
whatever the other members are. -/
theorem C3_validation_whole_payload :
    (∀ (deserializer : String → Except String JsonValue)
       (validator : JsonValue → Bool) (post_process : Response → Response)
       (context : Ctx) (methods : Methods) (text : String) (v : JsonValue),
      deserializer text = Except.ok v → validator v = false →
      dispatch_to_response_pure deserializer validator post_process context
        methods text =
        DispatchResult.single (Except.error
          ⟨-32600, "Invalid request",
           ErrData.val (.str ("The request failed schema validation")),
           JsonValue.null⟩))
    ∧ default_validator (.arr []) = false
    ∧ (∀ (l : List JsonValue) (x : JsonValue), x ∈ l →
        valid_request_object x = false → default_validator (.arr l) = false) := by
  refine ⟨?_, rfl, ?_⟩
  · intro deserializer validator post_process context methods text v hd hv
    unfold dispatch_to_response_pure dispatch_to_response_pure_with
    simp [deserialize_request, hd, Except.bind, validate_request, hv,
      ERROR_INVALID_REQUEST]
  · intro l x hx hxv
    have hall : l.all valid_request_object = false := by
      by_cases h : l.all valid_request_object = true
      · exact absurd (List.all_eq_true.mp h x hx) (by simp [hxv])
      · simpa using h
    simp [default_validator, hall]

/-- Witness for C3: the empty array and a batch with an invalid member both
collapse to the single InvalidRequest response. -/
theorem C3_witness :
    dispatch_to_response_pure (fun _ => Except.ok (.arr [])) default_validator
      id Ctx.nocontext [("ping", pingM)] "[]" =
      DispatchResult.single (Except.error
        ⟨-32600, "Invalid request",
         ErrData.val (.str ("The request failed schema validation")),
         JsonValue.null⟩)
    ∧ default_validator (.arr [.num 1]) = false :=
  ⟨C3_validation_whole_payload.1 _ _ _ _ _ _ _ rfl rfl,
   C3_validation_whole_payload.2.2 [.num 1] (.num 1) (List.Mem.head _) rfl⟩

/-- C10: when the dispatch machinery itself fails on every request (as the
test suite arranges by patching `dispatch_request` to raise), the pipeline
yields a single error response with code -32000, message "Server error",
the failure description as data and id null — for every validated
payload, so the original request id is not preserved and the response is
emitted even when the payload is a notification. -/
theorem C10_machinery_failure_server_error
    (deserializer : String → Except String JsonValue)
    (validator : JsonValue → Bool) (post_process : Response → Response)
    (context : Ctx) (methods : Methods) (text : String) (v : JsonValue)
    (desc : String)
    (hd : deserializer text = Except.ok v) (hv : validator v = true)
    (hne : to_list v ≠ []) :
    dispatch_to_response_pure_with (fun _ _ _ => Except.error desc)
      deserializer validator post_process context methods text =
      DispatchResult.single (Except.error
        ⟨-32000, "Server error", ErrData.val (.str desc), JsonValue.null⟩) := by
  obtain ⟨a, as, ha⟩ : ∃ a as, to_list v = a :: as := by
    cases h : to_list v with
    | nil => exact absurd h hne
    | cons a as => exact ⟨a, as, rfl⟩
  have hdd : dispatch_deserialized_with (fun _ _ _ => Except.error desc) methods
      context post_process v = Except.error desc := by
    unfold dispatch_deserialized_with
    simp only [ha]
    rw [mapM_of_error]
  unfold dispatch_to_response_pure_with
  simp [deserialize_request, hd, Except.bind, validate_request, hv, hdd,
    ERROR_SERVER_ERROR]

/-- Witness for C10: the machinery failure response is emitted even for a
notification payload, with a null id. -/
theorem C10_witness :
    dispatch_to_response_pure_with (fun _ _ _ => Except.error ("foo"))
      (fun _ => Except.ok pingNotifObj) default_validator id Ctx.nocontext
      [("ping", pingM)] "x" =
      DispatchResult.single (Except.error
        ⟨-32000, "Server error", ErrData.val (.str ("foo")), JsonValue.null⟩) :=
  C10_machinery_failure_server_error _ _ _ _ _ _ _ _ rfl rfl
    (by simp [to_list, pingNotifObj])

/-- C4: for every validated batch payload, the pipeline output is the
per-member responses in original member order, with no entries for
notification members, and collapses to the no-response value (not an empty
sequence) when every member is a notification; a validated single payload
yields a single (possibly absent) response, never a sequence. -/
theorem C4_batch_order_and_suppression :
    (∀ (deserializer : String → Except String JsonValue)
       (validator : JsonValue → Bool) (post_process : Response → Response)
       (context : Ctx) (methods : Methods) (text : String) (l : List JsonValue),
      deserializer text = Except.ok (.arr l) → validator (.arr l) = true →
      dispatch_to_response_pure deserializer validator post_process context
        methods text =
        batch_result (l.filterMap (response_for methods context post_process)))
    ∧ (∀ (deserializer : String → Except String JsonValue)
       (validator : JsonValue → Bool) (post_process : Response → Response)
       (context : Ctx) (methods : Methods) (text : String) (v : JsonValue),
      deserializer text = Except.ok v → (∀ l, v ≠ JsonValue.arr l) →
      validator v = true →
      dispatch_to_response_pure deserializer validator post_process context
        methods text =
        single_result (response_for methods context post_process v)) := by
  constructor
  · intro deserializer validator post_process context methods text l hd hv
    rw [dispatch_pipeline_valid deserializer validator post_process context
      methods text _ hd hv]
    rw [show to_list (JsonValue.arr l) = l from rfl,
        show is_batch_payload (JsonValue.arr l) = true from rfl]
    exact extract_list_true _
  · intro deserializer validator post_process context methods text v hd hne hv
    rw [dispatch_pipeline_valid deserializer validator post_process context
      methods text _ hd hv]
    have h1 : to_list v = [v] := by
      cases v <;> first | rfl | exact absurd rfl (hne _)
    have h2 : is_batch_payload v = false := by
      cases v <;> first | rfl | exact absurd rfl (hne _)
    rw [h1, h2]
    cases hr : response_for methods context post_process v <;>
        simp [List.filterMap_cons, hr, single_result] <;> rfl

/-- Witness for C4: a mixed batch keeps only the id-bearing member
response, an all-notification batch yields no response, and a single
request yields a single response. -/
theorem C4_witness :
    dispatch_to_response_pure
      (fun _ => Except.ok (.arr [pingIdObj, pingNotifObj])) default_validator
      id Ctx.nocontext [("ping", pingM)] "x" =
      DispatchResult.batch [Except.ok ⟨.str ("pong"), .num 1⟩]
    ∧ dispatch_to_response_pure (fun _ => Except.ok (.arr [pingNotifObj]))
      default_validator id Ctx.nocontext [("ping", pingM)] "x" =
      DispatchResult.noResponse
    ∧ dispatch_to_response_pure (fun _ => Except.ok pingIdObj)
      default_validator id Ctx.nocontext [("ping", pingM)] "x" =
      DispatchResult.single (Except.ok ⟨.str ("pong"), .num 1⟩) := by
  refine ⟨?_, ?_, ?_⟩
  · rw [C4_batch_order_and_suppression.1 _ _ _ _ _ _ _ rfl rfl]
    rfl
  · rw [C4_batch_order_and_suppression.1 _ _ _ _ _ _ _ rfl rfl]
    rfl
  · rw [C4_batch_order_and_suppression.2 _ _ _ _ _ _ _ rfl
      (fun l h => by simp [pingIdObj] at h) rfl]
    rfl

/-- C5: argument validation consults only the callable signature, never
its body (so it cannot invoke it); with positional params, any oversupply
of positional arguments (for a callable without a var-positional catch-all)
yields an InvalidParams error with code -32602, message "Invalid params"
and data exactly "too many positional arguments"; with named params, the
first required parameter left unfilled — named n — yields the same code and
message with data exactly "missing a required argument: <n>"; and a
callable accepting arbitrary keyword arguments accepts any named
mapping. -/
theorem C5_validate_args_contract :
    (∀ (request : Request) (context : Ctx) (s : MethodSig)
       (b1 b2 : List JsonValue → List (String × JsonValue) → MethodOutcome),
      (validate_args request context ⟨s, b1⟩).map (fun _ => ()) =
        (validate_args request context ⟨s, b2⟩).map (fun _ => ()))
    ∧ (∀ (meth : String) (ps : List JsonValue) (i : Option JsonValue)
         (context : Ctx) (m : Method),
      m.sig.hasVarArgs = false →
      m.sig.posParams.length < (extract_args ⟨meth, .arr ps, i⟩ context).length →
      validate_args ⟨meth, .arr ps, i⟩ context m =
        Except.error ⟨-32602, "Invalid params",
          ErrData.val (.str ("too many positional arguments"))⟩)
    ∧ (∀ (meth : String) (kw : List (String × JsonValue)) (i : Option JsonValue)
         (m : Method) (p : String × Bool),
      m.sig.posParams.find?
          (fun q => !q.2 && !kw.any (fun kv => kv.1 == q.1)) = some p →
      validate_args ⟨meth, .obj kw, i⟩ Ctx.nocontext m =
        Except.error ⟨-32602, "Invalid params",
          ErrData.val (.str ("missing a required argument: "
            ++ squote ++ p.1 ++ squote))⟩)
    ∧ (∀ (meth : String) (kw : List (String × JsonValue)) (i : Option JsonValue)
         (m : Method),
      m.sig.posParams = [] → m.sig.hasVarKwargs = true →
      validate_args ⟨meth, .obj kw, i⟩ Ctx.nocontext m = Except.ok m) := by
  refine ⟨?_, ?_, ?_, ?_⟩
  · intro request context s b1 b2
    unfold validate_args
    cases h : bindArgs s (extract_args request context) (extract_kwargs request) <;>
      simp [h, Except.map]
  · intro meth ps i context m hva hlen
    unfold validate_args bindArgs
    have hkw : extract_kwargs ⟨meth, .arr ps, i⟩ = [] := rfl
    rw [hkw]
    have hfalse : ∀ ns : List String, ns.find? (fun _ => false) = none := by
      intro ns
      apply List.find?_eq_none.mpr
      intro n _
      simp
    simp [hfalse, hva, hlen, ERROR_INVALID_PARAMS]
  · intro meth kw i m p hfind
    unfold validate_args bindArgs
    have hargs : extract_args ⟨meth, .obj kw, i⟩ Ctx.nocontext = [] := rfl
    have hkw : extract_kwargs ⟨meth, .obj kw, i⟩ = kw := rfl
    rw [hargs, hkw]
    simp [hfind, ERROR_INVALID_PARAMS]
  · intro meth kw i m hpp hk
    unfold validate_args bindArgs
    have hargs : extract_args ⟨meth, .obj kw, i⟩ Ctx.nocontext = [] := rfl
    have hkw : extract_kwargs ⟨meth, .obj kw, i⟩ = kw := rfl
    rw [hargs, hkw]
    simp [hpp, hk]

/-- Witness for C5: the test suite too-many-positionals, missing-required
and arbitrary-keywords cases. -/
theorem C5_witness :
    validate_args ⟨"ping", .arr [.str ("foo")], some (.num 1)⟩ Ctx.nocontext
      pingM =
      Except.error ⟨-32602, "Invalid params",
        ErrData.val (.str ("too many positional arguments"))⟩
    ∧ validate_args ⟨"foo", .obj [("colour", .str ("blue"))], some (.num 1)⟩
      Ctx.nocontext fooSizeM =
      Except.error ⟨-32602, "Invalid params",
        ErrData.val (.str ("missing a required argument: "
          ++ squote ++ "size" ++ squote))⟩
    ∧ validate_args ⟨"f", .obj [("foo", .str ("bar"))], some (.num 1)⟩
      Ctx.nocontext kwargsM = Except.ok kwargsM :=
  ⟨C5_validate_args_contract.2.1 ("ping") [.str ("foo")] (some (.num 1))
      Ctx.nocontext pingM rfl (by decide),
   C5_validate_args_contract.2.2.1 ("foo") [("colour", .str ("blue"))]
      (some (.num 1)) fooSizeM ("size", false) (by decide),
   C5_validate_args_contract.2.2.2 ("f") [("foo", .str ("bar"))] (some (.num 1))
      kwargsM rfl rfl⟩

/-- C6: if the invoked method raises the protocol-aware failure carrying
(code, message, data), the Invoker returns an Error with that code, message
and data verbatim — for every code, reserved ones included; if it raises
any other failure, the Invoker returns Error(-32603, "Internal error") with
the stringified failure description as data. -/
theorem C6_invoker_exception_mapping :
    (∀ (request : Request) (context : Ctx) (m : Method) (c : Int)
       (msg : String) (d : ErrData),
      m.body (extract_args request context) (extract_kwargs request) =
        MethodOutcome.raiseJsonRpc c msg d →
      call request context m = Except.error ⟨c, msg, d⟩)
    ∧ (∀ (request : Request) (context : Ctx) (m : Method) (desc : String),
      m.body (extract_args request context) (extract_kwargs request) =
        MethodOutcome.raiseOther desc →
      call request context m =
        Except.error ⟨-32603, "Internal error", ErrData.val (.str desc)⟩) := by
  constructor
  · intro request context m c msg d h
    unfold call
    rw [h]
  · intro request context m desc h
    unfold call
    rw [h]
    rfl

/-- Witness for C6: a method raising the protocol failure with the reserved
code 0 surfaces it verbatim; a generic failure maps to InternalError. -/
theorem C6_witness :
    call ⟨"ping", .arr [], some (.num 1)⟩ Ctx.nocontext raiseJsonRpcM =
      Except.error ⟨0, "foo", ErrData.val (.str ("bar"))⟩
    ∧ call ⟨"ping", .arr [], some (.num 1)⟩ Ctx.nocontext raiseOtherM =
      Except.error ⟨-32603, "Internal error", ErrData.val (.str ("foo"))⟩ :=
  ⟨C6_invoker_exception_mapping.1 _ _ _ _ _ _ rfl,
   C6_invoker_exception_mapping.2 _ _ _ _ rfl⟩

/-- C7: a method whose invocation returns a value that is neither a Success
nor an Error result (including returning nothing) makes the Invoker produce
Error(-32603, "Internal error") with data "The method did not return a
valid Result (returned <repr>)" where <repr> is the returned value
representation. -/
theorem C7_invalid_result_internal_error
    (request : Request) (context : Ctx) (m : Method) (rep : String)
    (h : m.body (extract_args request context) (extract_kwargs request) =
      MethodOutcome.invalidReturn rep) :
    call request context m =
      Except.error ⟨-32603, "Internal error",
        ErrData.val (.str ("The method did not return a valid Result (returned "
          ++ rep ++ ")"))⟩ := by
  unfold call
  rw [h]
  rfl

/-- Witness for C7: a method returning the interpreter nothing-value
(represented "None"). -/
theorem C7_witness :
    call ⟨"not_a_result", .arr [], some (.num 1)⟩ Ctx.nocontext notAResultM =
      Except.error ⟨-32603, "Internal error",
        ErrData.val
          (.str ("The method did not return a valid Result (returned None)"))⟩ :=
  C7_invalid_result_internal_error _ _ _ ("None") rfl

/-- C8 counterexample: the claim says a callable that does not declare a
context parameter is called with exactly the positional params whatever
context was supplied.  But the argument extractor does not consult the
callable at all: with the zero-parameter `ping` callable, empty positional
params and context "foo", the extracted argument list is ["foo"], and the
dispatch outcome is the too-many-positionals InvalidParams error rather
than the Success("pong") an exact-params call would produce. -/
theorem C8_counterexample :
    extract_args ⟨"ping", .arr [], some (.num 1)⟩ (Ctx.ctx (.str ("foo"))) =
      [.str ("foo")]
    ∧ (dispatch_request [("ping", pingM)] (Ctx.ctx (.str ("foo")))
        ⟨"ping", .arr [], some (.num 1)⟩).2 =
      Except.error ⟨-32602, "Invalid params",
        ErrData.val (.str ("too many positional arguments"))⟩
    ∧ (dispatch_request [("ping", pingM)] (Ctx.ctx (.str ("foo")))
        ⟨"ping", .arr [], some (.num 1)⟩).2 ≠ Except.ok ⟨.str ("pong")⟩ := by
  refine ⟨rfl, rfl, ?_⟩
  intro h
  exact Except.noConfusion h

/-- C8 as amended: when binding a positional params sequence, the context
value is prepended as the first call argument whenever a context other than
the no-context sentinel was supplied, regardless of the callable declared
parameters; the call arguments equal exactly the positional params
precisely when no context is supplied. -/
theorem C8_amended_context_always_prepended :
    (∀ (meth : String) (ps : List JsonValue) (i : Option JsonValue)
       (v : JsonValue),
      extract_args ⟨meth, .arr ps, i⟩ (Ctx.ctx v) = v :: ps)
    ∧ (∀ (meth : String) (ps : List JsonValue) (i : Option JsonValue),
      extract_args ⟨meth, .arr ps, i⟩ Ctx.nocontext = ps) :=
  ⟨fun _ _ _ _ => rfl, fun _ _ _ => rfl⟩

/-- C9: converting a (Request, Result) pair whose Request id is the
notification sentinel fails the assertion — the exception arm, which the
pipeline would surface as a machinery failure — and never produces a
Response. -/
theorem C9_to_response_notification_asserts
    (request : Request) (result : RpcResult) (h : request.id = none) :
    to_response request result = Except.error ("")
    ∧ ∀ r : Response, to_response request result ≠ Except.ok r := by
  have ht : to_response request result = Except.error ("") := by
    unfold to_response
    rw [h]
  exact ⟨ht, fun r hr => Except.noConfusion (ht ▸ hr)⟩

/-- Witness for C9: the test suite notification pair trips the
assertion. -/
theorem C9_witness :
    to_response ⟨"ping", .arr [], none⟩ (Except.ok ⟨.str ("pong")⟩) =
      Except.error ("")
    ∧ ∀ r : Response,
      to_response ⟨"ping", .arr [], none⟩ (Except.ok ⟨.str ("pong")⟩) ≠
        Except.ok r :=
  C9_to_response_notification_asserts _ _ rfl

end Jsonrpcserver
